import Mathlib

/-!
Verification of the per-call relay and interruption-control core of
CypherRealtimeAI (src/index.js): a bridge that pumps audio between a Twilio
media stream and an OpenAI realtime session, truncates the in-flight
assistant response when the caller interrupts, and dispatches tool calls.

The per-connection mutable state (src/index.js:267-271) is embedded as
`SessionState`; each wire-event handler becomes a pure step function from
state to state plus the lists of messages the handler sends to the model
side and to the telephony side.  JavaScript `null`/`undefined` is `none`,
and the source's truthiness tests are modelled exactly (`jsTruthyStr`,
`jsFalsyNum`).  Network calls of the capability providers are abstracted as
a universally quantified `FetchOutcome`; everything downstream of the fetch
(ok-check, body-shape checks, result mapping, try/catch) is translated from
the source.
-/

/-- JS truthiness of a nullable string (`if (streamSid)`, `if (lastAssistantItem)`,
`if (response.item_id)`): false for null/undefined and for the empty string. -/
def jsTruthyStr : Option String → Bool
  | none => false
  | some s => s != ""

/-- JS falsiness of a nullable number (`if (!responseStartTimestampTwilio)`):
true for null/undefined and ALSO for the number 0. -/
def jsFalsyNum : Option Int → Bool
  | none => true
  | some v => v == 0

/-- `markQueue.push(tok)` (src/index.js:459): appends at the tail.  The source
always pushes the literal string "responsePart"; the operation itself is the
generic JS `Array.prototype.push`. -/
def markPush (q : List String) (tok : String) : List String :=
  q ++ [tok]

/-- The Twilio `mark` (ack) case (src/index.js:589-593): `if (markQueue.length > 0)
markQueue.shift()`.  Returns the new queue and the removed head (the source
discards the removed value; it is recorded here to state the FIFO law).  On an
empty queue nothing is removed. -/
def markShift (q : List String) : List String × Option String :=
  match q with
  | [] => ([], none)
  | h :: t => (t, some h)

/-- The connection-specific state of one call session (src/index.js:267-271). -/
structure SessionState where
  streamSid : Option String
  latestMediaTimestamp : Int
  lastAssistantItem : Option String
  markQueue : List String
  responseStartTimestampTwilio : Option Int
  deriving DecidableEq, Repr

/-- The initial values of the connection-specific state (src/index.js:267-271). -/
def initialSessionState : SessionState :=
  { streamSid := none, latestMediaTimestamp := 0, lastAssistantItem := none,
    markQueue := [], responseStartTimestampTwilio := none }

/-! ## Capability providers (src/index.js:55-240)

The HTTP fetch performed by each provider is abstracted as a `FetchOutcome`:
the provider either got an ok response with a parsed JSON body, a non-ok
response (`!response.ok`, which the source turns into a thrown Error inside
its try block), or a network/runtime error (fetch rejected).  The URL
construction (src/index.js:146-175) only determines the request and is
covered by quantifying over all outcomes. -/

/-- Outcome of `await fetch(url)` followed by `response.json()`. -/
inductive FetchOutcome (α : Type) where
  | ok (body : α)
  | notOk (status : Nat)
  | netError
  deriving DecidableEq, Repr

/-- A raw product record of the Best Buy general-search response
(fields requested in src/index.js:76-85). -/
structure BBProduct where
  name : String
  manufacturer : String
  color : String
  shortDescription : String
  regularPrice : Int
  salePrice : Int
  customerReviewAverage : Int
  sku : Int
  deriving DecidableEq, Repr

/-- The simplified product object built in src/index.js:185-194. -/
structure GeneralProduct where
  name : String
  manufacturer : String
  color : String
  description : String
  regularPrice : Int
  salePrice : Int
  reviewScore : Int
  sku : Int
  deriving DecidableEq, Repr

/-- The mapping applied to each product (src/index.js:185-194). -/
def simplifyGeneralProduct (p : BBProduct) : GeneralProduct :=
  { name := p.name, manufacturer := p.manufacturer, color := p.color,
    description := p.shortDescription, regularPrice := p.regularPrice,
    salePrice := p.salePrice, reviewScore := p.customerReviewAverage,
    sku := p.sku }

/-- The parsed JSON body of a general-search response: `data.products` may be
absent (`undefined`), in which case `data.products.map` throws. -/
structure BBGeneralBody where
  products : Option (List BBProduct)
  deriving DecidableEq, Repr

/-- Return value of `bestBuyGeneralSearch`: a products payload or the
structured `{ error: ... }` object. -/
inductive BBGeneralResult where
  | products (items : List GeneralProduct)
  | error (message : String)
  deriving DecidableEq, Repr

/-- The apology string of src/index.js:198. -/
def bbGeneralApology : String :=
  "I apologize, but I encountered an error while searching for products. Please try your search again."

/-- `bestBuyGeneralSearch` (src/index.js:146-200) downstream of the fetch: a
non-ok response is thrown and caught, a missing `data.products` makes `.map`
throw and be caught, and the catch returns the structured apology error. -/
def bestBuyGeneralSearch (fetched : FetchOutcome BBGeneralBody) : BBGeneralResult :=
  match fetched with
  | FetchOutcome.ok body =>
      match body.products with
      | some ps => BBGeneralResult.products (ps.map simplifyGeneralProduct)
      | none => BBGeneralResult.error bbGeneralApology
  | FetchOutcome.notOk _ => BBGeneralResult.error bbGeneralApology
  | FetchOutcome.netError => BBGeneralResult.error bbGeneralApology

/-- A `details` entry of a detailed Best Buy product (src/index.js:86-96). -/
structure BBDetail where
  name : String
  value : String
  deriving DecidableEq, Repr

/-- A raw product record of the SKU-specific search response. -/
structure BBDetailedProduct where
  name : String
  color : String
  details : Option (List BBDetail)
  inStoreAvailability : Bool
  onlineAvailability : Bool
  regularPrice : Int
  salePrice : Int
  sku : Int
  deriving DecidableEq, Repr

/-- The parsed JSON body of a SKU-specific search response. -/
structure BBSpecificBody where
  products : Option (List BBDetailedProduct)
  deriving DecidableEq, Repr

/-- The simplified product object built in src/index.js:127-138. -/
structure SpecificProduct where
  name : String
  color : String
  details : List BBDetail
  inStoreAvailability : Bool
  onlineAvailability : Bool
  regularPrice : Int
  salePrice : Int
  sku : Int
  deriving DecidableEq, Repr

/-- Return value of `bestBuySpecificSearch`. -/
inductive BBSpecificResult where
  | product (p : SpecificProduct)
  | error (message : String)
  deriving DecidableEq, Repr

/-- The apology string of src/index.js:141. -/
def bbSpecificApology : String :=
  "I apologize, but I encountered an error while fetching the product details. Please try again."

/-- Rendering of the `sku` argument inside a JS template literal
(an absent argument renders as "undefined"). -/
def skuText : Option Int → String
  | some n => toString n
  | none => "undefined"

/-- `bestBuySpecificSearch` (src/index.js:106-143) downstream of the fetch. -/
def bestBuySpecificSearch (sku : Option Int) (fetched : FetchOutcome BBSpecificBody) :
    BBSpecificResult :=
  match fetched with
  | FetchOutcome.ok body =>
      match body.products with
      | none => BBSpecificResult.error ("No product found for SKU: " ++ skuText sku)
      | some [] => BBSpecificResult.error ("No product found for SKU: " ++ skuText sku)
      | some (p :: _) =>
          BBSpecificResult.product
            { name := p.name, color := p.color, details := p.details.getD [],
              inStoreAvailability := p.inStoreAvailability,
              onlineAvailability := p.onlineAvailability,
              regularPrice := p.regularPrice, salePrice := p.salePrice,
              sku := p.sku }
  | FetchOutcome.notOk _ => BBSpecificResult.error bbSpecificApology
  | FetchOutcome.netError => BBSpecificResult.error bbSpecificApology

/-- `result.choices[i].message` of a Perplexity response. -/
structure PerplexityMessage where
  content : String
  deriving DecidableEq, Repr

/-- One entry of `result.choices`; `message` may be absent. -/
structure PerplexityChoice where
  message : Option PerplexityMessage
  deriving DecidableEq, Repr

/-- The parsed JSON body of a Perplexity response; `choices` may be absent. -/
structure PerplexityBody where
  choices : Option (List PerplexityChoice)
  deriving DecidableEq, Repr

/-- Return value of the first variant's `fetchPerplexityResponse`. -/
inductive PerplexityResult where
  | answer (text : String)
  deriving DecidableEq, Repr

/-- The apology string of src/index.js:238. -/
def perplexityApology : String :=
  "I apologize, but I encountered an error while searching for information. Please try asking your question again."

/-- `fetchPerplexityResponse` (src/index.js:203-240) downstream of the fetch:
a non-ok response is thrown, an absent `choices[0]` or `message` makes the
field access throw, and the catch returns the apology answer. -/
def fetchPerplexityResponse (fetched : FetchOutcome PerplexityBody) : PerplexityResult :=
  match fetched with
  | FetchOutcome.ok body =>
      match body.choices with
      | some (c :: _) =>
          match c.message with
          | some m => PerplexityResult.answer m.content
          | none => PerplexityResult.answer perplexityApology
      | _ => PerplexityResult.answer perplexityApology
  | _ => PerplexityResult.answer perplexityApology

/-- `generateHoroscope` (src/index.js:55-71): the dictionary lookup
`horoscopes[sign] || fallback`; an absent `sign` argument also yields the
fallback. -/
def generateHoroscope (sign : Option String) : String :=
  match sign with
  | some s =>
      if s == "Aries" then "Today brings exciting opportunities for leadership. Your energy is contagious!"
      else if s == "Taurus" then "Focus on self-care today. A peaceful moment leads to valuable insights."
      else if s == "Gemini" then "Your communication skills shine bright today. Share your ideas freely."
      else if s == "Cancer" then "Trust your intuition today. Home projects bring joy and satisfaction."
      else if s == "Leo" then "Your creative energy is at its peak. Time to showcase your talents!"
      else if s == "Virgo" then "Details matter today. Your analytical skills lead to important discoveries."
      else if s == "Libra" then "Balance and harmony are highlighted. Relationships flourish under your care."
      else if s == "Scorpio" then "Your determination opens new doors. Trust in your inner strength."
      else if s == "Sagittarius" then "Adventure calls today. Follow your curiosity to new horizons."
      else if s == "Capricorn" then "Your practical approach yields results. Career goals move forward."
      else if s == "Aquarius" then "Innovation is your key to success today. Think outside the box!"
      else if s == "Pisces" then "Your imagination brings magic to ordinary situations. Dream big!"
      else "Unable to generate horoscope for that sign."
  | none => "Unable to generate horoscope for that sign."

/-! ## Messages sent by the handlers -/

/-- Structured content of a `function_call_output` item's `output` field
(the source serialises it with `JSON.stringify`). -/
inductive ToolOutput where
  | horoscopeResult (horoscope : String)
  | bbSpecific (r : BBSpecificResult)
  | bbGeneral (r : BBGeneralResult)
  | perplexity (r : PerplexityResult)
  | resultWrapped (result : String)
  deriving DecidableEq, Repr

/-- Messages sent on the OpenAI websocket by the handlers under study. -/
inductive ModelMsg where
  | inputAudioAppend (audio : String)
  | truncate (item_id : String) (audio_end_ms : Int)
  | functionCallOutput (call_id : String) (output : ToolOutput)
  | responseCreate
  deriving DecidableEq, Repr

/-- Messages sent on the Twilio websocket by the handlers under study.
`media` carries the current `streamSid` (possibly null) and the payload;
`mark` is the `{ name: 'responsePart' }` mark event; `clear` tells Twilio to
drop buffered audio. -/
inductive TwilioMsg where
  | media (streamSid : Option String) (payload : String)
  | mark (streamSid : Option String)
  | clear (streamSid : Option String)
  deriving DecidableEq, Repr

/-! ## Tool dispatch (first variant, src/index.js:479-533 and 559-561) -/

/-- The parsed argument object of a tool call. `parsedArgs = none` models
`JSON.parse(functionCall.arguments)` throwing (malformed payload); the
fields mirror the arguments the four known tools read.  (The optional
`filters` argument only shapes the provider's request URL, which is
abstracted into the quantified fetch outcome.) -/
structure ToolArgs where
  sign : Option String := none
  sku : Option Int := none
  searchTerms : List String := []
  userQuestion : Option String := none
  deriving DecidableEq, Repr

/-- A completed `function_call` output entry of a `response.done` event. -/
structure FunctionCall where
  name : String
  call_id : String
  parsedArgs : Option ToolArgs
  deriving DecidableEq, Repr

/-- The outcomes of the providers' network calls, one per provider, supplied
to the dispatcher as its environment. -/
structure ProviderEnv where
  bbSpecificFetch : FetchOutcome BBSpecificBody
  bbGeneralFetch : FetchOutcome BBGeneralBody
  perplexityFetch : FetchOutcome PerplexityBody
  deriving DecidableEq, Repr

/-- A fixed provider environment used for concrete evaluations. -/
def anyProviderEnv : ProviderEnv :=
  { bbSpecificFetch := FetchOutcome.netError,
    bbGeneralFetch := FetchOutcome.netError,
    perplexityFetch := FetchOutcome.netError }

/-- The function-call branch of the first variant's `response.done` handler
(src/index.js:479-533).  `JSON.parse` of the arguments throws on a malformed
payload (`Except.error`, src/index.js:483); otherwise the if/else chain over
the four registered names builds `functionCallOutput` and the handler sends
it followed by `response.create`; an unknown name leaves `functionCallOutput`
undefined and nothing is sent (src/index.js:528-531). -/
def dispatchFunctionCall (env : ProviderEnv) (fc : FunctionCall) :
    Except Unit (List ModelMsg) :=
  match fc.parsedArgs with
  | none => Except.error ()
  | some args =>
      if fc.name == "generate_horoscope" then
        Except.ok [ModelMsg.functionCallOutput fc.call_id
            (ToolOutput.horoscopeResult (generateHoroscope args.sign)),
          ModelMsg.responseCreate]
      else if fc.name == "bestBuySpecificSearch" then
        Except.ok [ModelMsg.functionCallOutput fc.call_id
            (ToolOutput.bbSpecific (bestBuySpecificSearch args.sku env.bbSpecificFetch)),
          ModelMsg.responseCreate]
      else if fc.name == "bestBuyGeneralSearch" then
        Except.ok [ModelMsg.functionCallOutput fc.call_id
            (ToolOutput.bbGeneral (bestBuyGeneralSearch env.bbGeneralFetch)),
          ModelMsg.responseCreate]
      else if fc.name == "fetchPerplexityResponse" then
        Except.ok [ModelMsg.functionCallOutput fc.call_id
            (ToolOutput.perplexity (fetchPerplexityResponse env.perplexityFetch)),
          ModelMsg.responseCreate]
      else
        Except.ok []

/-- The messages the first variant's OpenAI message handler actually sends for
a `response.done` carrying `fc`: a thrown error (malformed arguments) is
caught by the handler's catch block (src/index.js:559-561), which logs and
sends nothing. -/
def processResponseDone (env : ProviderEnv) (fc : FunctionCall) : List ModelMsg :=
  match dispatchFunctionCall env fc with
  | Except.error _ => []
  | Except.ok msgs => msgs

/-! ## Tool dispatch (second variant, src/index.js:680-718 and 875-898) -/

/-- Outcome of the second variant's Perplexity fetch: it performs no
`response.ok` check, so the outcome is either a parsed body or a rejected
fetch/json call. -/
inductive FetchResult2 where
  | json (body : PerplexityBody)
  | netError
  deriving DecidableEq, Repr

/-- The second variant's `fetchPerplexityResponse` (src/index.js:680-718):
returns the content on success, otherwise throws ("No response content
available.") or rethrows the network error — its catch logs and rethrows. -/
def fetchPerplexityResponseThrowing (fetched : FetchResult2) : Except Unit String :=
  match fetched with
  | FetchResult2.json body =>
      match body.choices with
      | some (c :: _) =>
          match c.message with
          | some m => Except.ok m.content
          | none => Except.error ()
      | _ => Except.error ()
  | FetchResult2.netError => Except.error ()

/-- `handleFunctionCall` (src/index.js:875-898): only the name
`fetchPerplexityResponse` has a branch; a `JSON.parse` failure or a thrown
provider error is caught by its catch block, which logs and sends nothing.
On success a single `function_call_output` item is sent. -/
def handleFunctionCall (fc : FunctionCall) (fetched : FetchResult2) : List ModelMsg :=
  if fc.name == "fetchPerplexityResponse" then
    match fc.parsedArgs with
    | none => []
    | some _ =>
        match fetchPerplexityResponseThrowing fetched with
        | Except.error _ => []
        | Except.ok content =>
            [ModelMsg.functionCallOutput fc.call_id (ToolOutput.resultWrapped content)]
  else []

/-! ## The session event handlers (first variant) -/

/-- The `response.audio.delta` branch (src/index.js:535-554): guarded by
`response.delta` being truthy; forwards the payload as a `media` event,
records `responseStartTimestampTwilio` when it is JS-falsy (null OR zero),
records a truthy `item_id` into `lastAssistantItem`, then `sendMark`
(src/index.js:451-461) sends a mark and pushes onto the queue only when
`streamSid` is truthy. -/
def onAudioDelta (s : SessionState) (delta : String) (item_id : Option String) :
    SessionState × List TwilioMsg :=
  if delta != "" then
    let s1 :=
      if jsFalsyNum s.responseStartTimestampTwilio then
        { s with responseStartTimestampTwilio := some s.latestMediaTimestamp }
      else s
    let s2 :=
      if jsTruthyStr item_id then { s1 with lastAssistantItem := item_id } else s1
    if jsTruthyStr s.streamSid then
      ({ s2 with markQueue := markPush s2.markQueue "responsePart" },
       [TwilioMsg.media s.streamSid delta, TwilioMsg.mark s.streamSid])
    else
      (s2, [TwilioMsg.media s.streamSid delta])
  else (s, [])

/-- `handleSpeechStartedEvent` (src/index.js:422-448): when the mark queue is
non-empty AND `responseStartTimestampTwilio != null`, computes
`elapsedTime = latestMediaTimestamp - responseStartTimestampTwilio`, sends a
truncate event when `lastAssistantItem` is truthy, sends one `clear` to
Twilio, and resets the queue, the item id and the start timestamp; otherwise
it does nothing. -/
def handleSpeechStartedEvent (s : SessionState) :
    SessionState × List ModelMsg × List TwilioMsg :=
  match s.markQueue, s.responseStartTimestampTwilio with
  | _ :: _, some startTs =>
      let elapsedTime := s.latestMediaTimestamp - startTs
      let modelMsgs :=
        match s.lastAssistantItem with
        | some itemId =>
            if itemId != "" then [ModelMsg.truncate itemId elapsedTime] else []
        | none => []
      ({ s with markQueue := [], lastAssistantItem := none,
                responseStartTimestampTwilio := none },
       modelMsgs, [TwilioMsg.clear s.streamSid])
  | _, _ => (s, [], [])

/-- The wire events that mutate the session state, each carrying the data its
handler reads.  `twilioMedia` carries whether the OpenAI socket is currently
open (`openAiWs.readyState === WebSocket.OPEN`, src/index.js:573). -/
inductive SessionEvent where
  | twilioMedia (timestamp : Int) (payload : String) (modelIsOpen : Bool)
  | twilioStart (sid : String)
  | twilioMark
  | audioDelta (delta : String) (item_id : Option String)
  | speechStarted
  deriving DecidableEq, Repr

/-- One step of the session: the event's handler as written in
src/index.js:535-558 (OpenAI side) and src/index.js:565-601 (Twilio side).
Returns the new state, the messages sent to the model and the messages sent
to Twilio. -/
def sessionStep (s : SessionState) :
    SessionEvent → SessionState × List ModelMsg × List TwilioMsg
  | SessionEvent.twilioMedia ts payload modelIsOpen =>
      ({ s with latestMediaTimestamp := ts },
       if modelIsOpen then [ModelMsg.inputAudioAppend payload] else [], [])
  | SessionEvent.twilioStart sid =>
      ({ s with streamSid := some sid, responseStartTimestampTwilio := none,
                latestMediaTimestamp := 0 }, [], [])
  | SessionEvent.twilioMark =>
      ({ s with markQueue := (markShift s.markQueue).1 }, [], [])
  | SessionEvent.audioDelta d iid =>
      ((onAudioDelta s d iid).1, [], (onAudioDelta s d iid).2)
  | SessionEvent.speechStarted => handleSpeechStartedEvent s

/-- Run a list of events through `sessionStep`, concatenating the sent
messages in order. -/
def runSession (s : SessionState) :
    List SessionEvent → SessionState × List ModelMsg × List TwilioMsg
  | [] => (s, [], [])
  | e :: rest =>
      let r1 := sessionStep s e
      let r2 := runSession r1.1 rest
      (r2.1, r1.2.1 ++ r2.2.1, r1.2.2 ++ r2.2.2)

/-! ## Connection lifecycle (src/index.js:604-616) -/

/-- State of one websocket connection. -/
inductive ConnState where
  | Connecting
  | Open
  | Closed
  deriving DecidableEq, Repr

/-- The pair of connections of one call session. -/
structure ConnPair where
  telephony : ConnState
  model : ConnState
  deriving DecidableEq, Repr

/-- Lifecycle events: the Twilio connection closing, the OpenAI socket
finishing its handshake, the OpenAI socket closing. -/
inductive ConnEvent where
  | telephonyClose
  | modelOpen
  | modelClose
  deriving DecidableEq, Repr

/-- The lifecycle step.  `connection.on('close')` (src/index.js:604-607)
closes the OpenAI socket only when its readyState is OPEN;
`openAiWs.on('open')` moves a connecting socket to open;
`openAiWs.on('close')` (src/index.js:610-612) only logs — it does not touch
the Twilio connection. -/
def connStep (s : ConnPair) : ConnEvent → ConnPair
  | ConnEvent.telephonyClose =>
      { telephony := ConnState.Closed,
        model := if s.model = ConnState.Open then ConnState.Closed else s.model }
  | ConnEvent.modelOpen =>
      if s.model = ConnState.Connecting then { s with model := ConnState.Open } else s
  | ConnEvent.modelClose => { s with model := ConnState.Closed }

/-- When the `/media-stream` handler runs, the Twilio connection is already
open and the OpenAI socket has just been created (src/index.js:273-278). -/
def initialConnPair : ConnPair :=
  { telephony := ConnState.Open, model := ConnState.Connecting }

/-- The states a session's connection pair can reach. -/
inductive connReachable : ConnPair → Prop where
  | init : connReachable initialConnPair
  | step (s : ConnPair) (e : ConnEvent) : connReachable s → connReachable (connStep s e)

/-! ## The ack queue as a standalone machine -/

/-- An interleaving element: an outbound audio fragment's push
(`sendMark`, src/index.js:451-461) or a Twilio mark-ack
(src/index.js:589-593).  The source pushes the constant "responsePart";
the token is kept generic so that removal order is observable. -/
inductive AckEvent where
  | push (tok : String)
  | ack
  deriving DecidableEq, Repr

/-- The tokens an interleaving pushes, in order. -/
def pushedTokens : List AckEvent → List String
  | [] => []
  | AckEvent.push t :: rest => t :: pushedTokens rest
  | AckEvent.ack :: rest => pushedTokens rest

/-- Run an interleaving through the queue operations, returning the final
queue and the removed tokens in removal order. -/
def runAckQueue (q : List String) : List AckEvent → List String × List String
  | [] => (q, [])
  | AckEvent.push t :: rest => runAckQueue (markPush q t) rest
  | AckEvent.ack :: rest =>
      let r1 := markShift q
      let r2 := runAckQueue r1.1 rest
      (r2.1, r1.2.toList ++ r2.2)

/-- The message sequence `audio_deltas_ordered` predicts for a list of
forwarded payloads: each fragment's media event followed by its mark. -/
def expectedDeltaMsgs (sid : Option String) : List String → List TwilioMsg
  | [] => []
  | p :: rest => TwilioMsg.media sid p :: TwilioMsg.mark sid :: expectedDeltaMsgs sid rest

/-! ## Claim theorems -/

/-- C1: a caller-speech-detected event arriving while the mark queue is
non-empty, `responseStartTimestampTwilio` is non-null and `lastAssistantItem`
is non-null (in the source's truthiness sense: it only ever holds a non-empty
string, recorded under `if (response.item_id)`) emits exactly one truncate
carrying `elapsed = latestMediaTimestamp - responseStartTimestampTwilio` and
exactly one clear, then resets the queue to empty and both the item id and
the start timestamp to null. -/
theorem speech_started_interrupt (s : SessionState) (startTs : Int) (itemId : String)
    (hq : s.markQueue ≠ [])
    (hr : s.responseStartTimestampTwilio = some startTs)
    (hi : s.lastAssistantItem = some itemId)
    (hne : itemId ≠ "") :
    handleSpeechStartedEvent s =
      ({ s with markQueue := [], lastAssistantItem := none,
                responseStartTimestampTwilio := none },
       [ModelMsg.truncate itemId (s.latestMediaTimestamp - startTs)],
       [TwilioMsg.clear s.streamSid]) := by
  rcases s with ⟨sid, ts, item, queue, rs⟩
  simp only at hq hr hi
  subst hr hi
  cases queue with
  | nil => exact absurd rfl hq
  | cons a t => simp [handleSpeechStartedEvent, hne]

/-- Witness for C1 at the spec's example numbers: a queue holding one pending
ack, `responseStartTimestampTwilio = 1000`, `latestMediaTimestamp = 1450`:
one truncate with elapsed 450 and one clear, then the reset state. -/
theorem speech_started_interrupt_witness :
    handleSpeechStartedEvent
        { streamSid := some "MZ1", latestMediaTimestamp := 1450,
          lastAssistantItem := some "item_1", markQueue := ["responsePart"],
          responseStartTimestampTwilio := some 1000 } =
      ({ streamSid := some "MZ1", latestMediaTimestamp := 1450,
         lastAssistantItem := none, markQueue := [],
         responseStartTimestampTwilio := none },
       [ModelMsg.truncate "item_1" 450],
       [TwilioMsg.clear (some "MZ1")]) := by
  have h := speech_started_interrupt
    { streamSid := some "MZ1", latestMediaTimestamp := 1450,
      lastAssistantItem := some "item_1", markQueue := ["responsePart"],
      responseStartTimestampTwilio := some 1000 }
    1000 "item_1" (by decide) rfl rfl (by decide)
  simpa using h

/-- C2: a caller-speech-detected event delivered with an empty mark queue, or
with a null `responseStartTimestampTwilio`, is a no-op: no truncate, no
clear, and every session state variable is left unchanged. -/
theorem speech_started_noop (s : SessionState)
    (h : s.markQueue = [] ∨ s.responseStartTimestampTwilio = none) :
    handleSpeechStartedEvent s = (s, [], []) := by
  rcases s with ⟨sid, ts, item, queue, rs⟩
  simp only at h
  cases queue with
  | nil => cases rs <;> rfl
  | cons a t =>
      cases rs with
      | none => rfl
      | some v => simp at h

/-- Witness for C2: a caller-speech-detected event in the initial (Idle)
state changes nothing and sends nothing. -/
theorem speech_started_noop_witness :
    handleSpeechStartedEvent initialSessionState = (initialSessionState, [], []) :=
  speech_started_noop initialSessionState (Or.inr rfl)

/-- C10: a Twilio `start` event sets `streamSid`, resets
`latestMediaTimestamp` to 0 and `responseStartTimestampTwilio` to null, and
leaves `markQueue` and `lastAssistantItem` exactly as they were; it sends no
messages. -/
theorem start_event_frame (s : SessionState) (sid : String) :
    sessionStep s (SessionEvent.twilioStart sid) =
      ({ streamSid := some sid, latestMediaTimestamp := 0,
         lastAssistantItem := s.lastAssistantItem, markQueue := s.markQueue,
         responseStartTimestampTwilio := none }, [], []) := rfl

/-- Counterexample to C3: the session can reach a state with the telephony
connection open and the model connection closed, because the OpenAI close
handler (src/index.js:610-612) only logs: a model-close event from the
all-open state leaves the telephony side open. -/
theorem paired_teardown_cex :
    connReachable { telephony := ConnState.Open, model := ConnState.Closed } ∧
    (connStep { telephony := ConnState.Open, model := ConnState.Open }
        ConnEvent.modelClose).telephony = ConnState.Open := by
  constructor
  · have h1 := connReachable.step initialConnPair ConnEvent.modelOpen connReachable.init
    have h2 := connReachable.step _ ConnEvent.modelClose h1
    exact h2
  · rfl

/-- C3 amended: teardown is paired in one direction only.  Closing the
telephony connection closes the model connection when it is open at that
moment; closing the model connection never touches the telephony connection
(its close handler only logs), so a state with the telephony side open after
the model side has closed is reachable. -/
theorem paired_teardown_amended :
    (∀ s : ConnPair, s.model = ConnState.Open →
        connStep s ConnEvent.telephonyClose =
          { telephony := ConnState.Closed, model := ConnState.Closed }) ∧
    (∀ s : ConnPair, (connStep s ConnEvent.modelClose).telephony = s.telephony) ∧
    connReachable { telephony := ConnState.Open, model := ConnState.Closed } := by
  refine ⟨fun s hs => ?_, fun s => rfl, ?_⟩
  · simp [connStep, hs]
  · have h1 := connReachable.step initialConnPair ConnEvent.modelOpen connReachable.init
    exact connReachable.step _ ConnEvent.modelClose h1

/-- C4: the ack queue is FIFO.  For every interleaving of pushes and acks,
the removed tokens followed by the remaining queue are exactly the starting
queue followed by the pushed tokens in push order (so removal happens in
insertion order and never outruns the insertions), and an ack on an empty
queue removes nothing. -/
theorem ackQueue_fifo :
    (∀ (q : List String) (evts : List AckEvent),
        (runAckQueue q evts).2 ++ (runAckQueue q evts).1 = q ++ pushedTokens evts) ∧
    markShift [] = ([], none) := by
  refine ⟨fun q evts => ?_, rfl⟩
  induction evts generalizing q with
  | nil => simp [runAckQueue, pushedTokens]
  | cons e rest ih =>
      cases e with
      | push t => simpa [runAckQueue, pushedTokens, markPush] using ih (q ++ [t])
      | ack =>
          cases q with
          | nil => simpa [runAckQueue, pushedTokens, markShift] using ih []
          | cons h t => simpa [runAckQueue, pushedTokens, markShift] using ih t

/-- Counterexample to C5: a tool call named "doesNotExist" (with well-formed
arguments) makes the dispatcher send nothing at all — no structured
"capability not available" error result is produced. -/
theorem unknown_tool_name_cex :
    processResponseDone anyProviderEnv
      { name := "doesNotExist", call_id := "call_1", parsedArgs := some {} } = [] := rfl

/-- C5 amended: a tool-call output whose name is not one of the four
registered names is silently dropped: `functionCallOutput` stays undefined,
so no error result and no `response.create` are sent, and the handler does
not throw or terminate the session (it returns normally with no messages). -/
theorem unknown_tool_name_silent (env : ProviderEnv) (fc : FunctionCall) (args : ToolArgs)
    (hp : fc.parsedArgs = some args)
    (h1 : fc.name ≠ "generate_horoscope")
    (h2 : fc.name ≠ "bestBuySpecificSearch")
    (h3 : fc.name ≠ "bestBuyGeneralSearch")
    (h4 : fc.name ≠ "fetchPerplexityResponse") :
    dispatchFunctionCall env fc = Except.ok [] ∧ processResponseDone env fc = [] := by
  have hd : dispatchFunctionCall env fc = Except.ok [] := by
    simp [dispatchFunctionCall, hp, h1, h2, h3, h4]
  exact ⟨hd, by simp [processResponseDone, hd]⟩

/-- Witness for C5 amended at the unregistered name "doesNotExistToo". -/
theorem unknown_tool_name_silent_witness :
    dispatchFunctionCall anyProviderEnv
        { name := "doesNotExistToo", call_id := "call_2", parsedArgs := some {} } =
      Except.ok [] ∧
    processResponseDone anyProviderEnv
        { name := "doesNotExistToo", call_id := "call_2", parsedArgs := some {} } = [] :=
  unknown_tool_name_silent anyProviderEnv
    { name := "doesNotExistToo", call_id := "call_2", parsedArgs := some {} } {}
    rfl (by decide) (by decide) (by decide) (by decide)

/-- Counterexample to C6: a tool call whose argument payload does not parse
(here for the registered name "bestBuyGeneralSearch") makes the handler send
nothing back into the conversation — no structured parse-error result is
produced. -/
theorem parse_failure_cex :
    processResponseDone anyProviderEnv
      { name := "bestBuyGeneralSearch", call_id := "call_3", parsedArgs := none } = [] := rfl

/-- C6 amended: a JSON parse failure of the argument payload throws out of
the function-call branch and is caught by the message handler's catch block
(src/index.js:559-561), which only logs: no result of any kind is sent back
into the conversation, and the session is not terminated. -/
theorem parse_failure_logged_only (env : ProviderEnv) (fc : FunctionCall)
    (hp : fc.parsedArgs = none) :
    dispatchFunctionCall env fc = Except.error () ∧ processResponseDone env fc = [] := by
  have hd : dispatchFunctionCall env fc = Except.error () := by
    simp [dispatchFunctionCall, hp]
  exact ⟨hd, by simp [processResponseDone, hd]⟩

/-- Witness for C6 amended at a concrete malformed-argument call. -/
theorem parse_failure_logged_only_witness :
    dispatchFunctionCall anyProviderEnv
        { name := "generate_horoscope", call_id := "call_4", parsedArgs := none } =
      Except.error () ∧
    processResponseDone anyProviderEnv
        { name := "generate_horoscope", call_id := "call_4", parsedArgs := none } = [] :=
  parse_failure_logged_only anyProviderEnv
    { name := "generate_horoscope", call_id := "call_4", parsedArgs := none } rfl

/-- Counterexample to C9: in `handleFunctionCall` (src/index.js:875-898) a
provider failure (the second variant's `fetchPerplexityResponse` rethrows on
a failed fetch) is caught and logged, but NO apology result is delivered
back into the conversation: the handler sends nothing. -/
theorem provider_failure_swallowed_cex :
    handleFunctionCall
      { name := "fetchPerplexityResponse", call_id := "call_9", parsedArgs := some {} }
      FetchResult2.netError = [] := rfl

/-- C9 amended: a handler exception or provider-reported failure never
terminates the session, and in the first variant's providers it is converted
to a structured apology result that the dispatcher delivers back into the
conversation (shown here for both Best Buy searches and the Perplexity
lookup, for non-ok responses, network errors and malformed bodies alike);
but in `handleFunctionCall` (src/index.js:875-898) the caught failure is
only logged and nothing is delivered back. -/
theorem provider_failure_apology_amended :
    (∀ status : Nat,
        bestBuyGeneralSearch (FetchOutcome.notOk status) =
          BBGeneralResult.error bbGeneralApology) ∧
    (bestBuyGeneralSearch FetchOutcome.netError = BBGeneralResult.error bbGeneralApology) ∧
    (bestBuyGeneralSearch (FetchOutcome.ok { products := none }) =
        BBGeneralResult.error bbGeneralApology) ∧
    (∀ (sku : Option Int) (status : Nat),
        bestBuySpecificSearch sku (FetchOutcome.notOk status) =
          BBSpecificResult.error bbSpecificApology ∧
        bestBuySpecificSearch sku FetchOutcome.netError =
          BBSpecificResult.error bbSpecificApology) ∧
    (∀ status : Nat,
        fetchPerplexityResponse (FetchOutcome.notOk status) =
          PerplexityResult.answer perplexityApology ∧
        fetchPerplexityResponse FetchOutcome.netError =
          PerplexityResult.answer perplexityApology) ∧
    (∀ (env : ProviderEnv) (fc : FunctionCall) (args : ToolArgs),
        fc.parsedArgs = some args → fc.name = "bestBuyGeneralSearch" →
        processResponseDone env fc =
          [ModelMsg.functionCallOutput fc.call_id
              (ToolOutput.bbGeneral (bestBuyGeneralSearch env.bbGeneralFetch)),
           ModelMsg.responseCreate]) ∧
    (∀ (fc : FunctionCall) (fetched : FetchResult2) (e : Unit),
        fetchPerplexityResponseThrowing fetched = Except.error e →
        handleFunctionCall fc fetched = []) := by
  refine ⟨fun status => rfl, rfl, rfl, fun sku status => ⟨rfl, rfl⟩,
    fun status => ⟨rfl, rfl⟩, fun env fc args hp hn => ?_, fun fc fetched e he => ?_⟩
  · simp [processResponseDone, dispatchFunctionCall, hp, hn]
  · unfold handleFunctionCall
    split
    · cases hargs : fc.parsedArgs with
      | none => rfl
      | some a => simp [hargs, he]
    · rfl

/-- C7 (code bug, evaluated at the failing input): after a `start` event and
a first audio fragment of a response segment arriving at
`latestMediaTimestamp = 0`, the start timestamp is captured as 0; but
because the guard `if (!responseStartTimestampTwilio)` (src/index.js:544)
tests JS falsiness rather than null, the SECOND fragment of the SAME segment
(after a media event moves `latestMediaTimestamp` to 500, with no
interruption and no segment end in between) REASSIGNS the captured start
timestamp to 500 — contradicting the claim (and the source's own comment
"First delta from a new response starts the elapsed time counter") that it
is assigned at most once per segment. -/
theorem response_start_reassigned :
    (runSession initialSessionState
        [SessionEvent.twilioStart "MZ_c7",
         SessionEvent.audioDelta "d1" (some "item_a")]).1.responseStartTimestampTwilio
      = some 0 ∧
    (runSession initialSessionState
        [SessionEvent.twilioStart "MZ_c7",
         SessionEvent.audioDelta "d1" (some "item_a"),
         SessionEvent.twilioMedia 500 "p" true,
         SessionEvent.audioDelta "d2" (some "item_a")]).1.responseStartTimestampTwilio
      = some 500 := by
  constructor <;> rfl

/-- Counterexample to C8: an audio fragment arriving before any `start` event
(streamSid still null) IS forwarded to the telephony side, but `sendMark`
(src/index.js:452) pushes nothing, so the forwarded fragment adds no
acknowledgment token to the queue. -/
theorem audio_delta_no_mark_cex :
    (onAudioDelta initialSessionState "deltaPayload" none).2 =
      [TwilioMsg.media none "deltaPayload"] ∧
    (onAudioDelta initialSessionState "deltaPayload" none).1.markQueue = [] := by
  constructor <;> rfl

/-- An audio-delta handler never changes `streamSid`. -/
theorem onAudioDelta_streamSid (s : SessionState) (d : String) (iid : Option String) :
    (onAudioDelta s d iid).1.streamSid = s.streamSid := by
  unfold onAudioDelta
  split
  · split <;> split <;> split <;> rfl
  · rfl

/-- With a truthy `streamSid` and a non-empty delta, the handler forwards the
payload followed by a mark, and appends exactly one token to the queue. -/
theorem onAudioDelta_open_eq (s : SessionState) (d : String) (iid : Option String)
    (hd : d ≠ "") (hs : jsTruthyStr s.streamSid = true) :
    (onAudioDelta s d iid).1.markQueue = s.markQueue ++ ["responsePart"] ∧
    (onAudioDelta s d iid).2 =
      [TwilioMsg.media s.streamSid d, TwilioMsg.mark s.streamSid] := by
  unfold onAudioDelta
  have hd' : (d != "") = true := by simpa using hd
  rw [hd', if_pos rfl, hs]
  split <;> split <;> simp [markPush]

/-- C8 amended: once a stream has started (`streamSid` is a non-empty
string), every sequence of N non-empty model audio fragments is forwarded to
the telephony side in production order, each immediately followed by its
mark, and the ack queue grows by exactly N tokens; a fragment arriving while
`streamSid` is still null is forwarded but pushes no token
(`audio_delta_no_mark_cex`). -/
theorem audio_deltas_ordered (sid : String) (payloads : List String) :
    sid ≠ "" →
    ∀ s : SessionState, s.streamSid = some sid → (∀ p ∈ payloads, p ≠ "") →
    (runSession s (payloads.map (fun p => SessionEvent.audioDelta p none))).2.2 =
      expectedDeltaMsgs (some sid) payloads ∧
    (runSession s (payloads.map (fun p => SessionEvent.audioDelta p none))).1.markQueue =
      s.markQueue ++ List.replicate payloads.length "responsePart" := by
  intro hsid
  induction payloads with
  | nil => intro s hs hp; simp [runSession, expectedDeltaMsgs]
  | cons p rest ih =>
      intro s hs hp
      have hp0 : p ≠ "" := hp p (List.mem_cons_self p rest)
      have hrest : ∀ q ∈ rest, q ≠ "" := fun q hq => hp q (List.mem_cons_of_mem p hq)
      have htruthy : jsTruthyStr s.streamSid = true := by
        rw [hs]; simpa [jsTruthyStr] using hsid
      have hstep := onAudioDelta_open_eq s p none hp0 htruthy
      have hsid1 : (onAudioDelta s p none).1.streamSid = some sid := by
        rw [onAudioDelta_streamSid, hs]
      have hih := ih (onAudioDelta s p none).1 hsid1 hrest
      simp only [List.map_cons, runSession, sessionStep]
      refine ⟨?_, ?_⟩
      · rw [hstep.2, hih.1, hs]
        simp [expectedDeltaMsgs]
      · rw [hih.2, hstep.1]
        simp [List.replicate_succ]

/-- Witness for C8 amended: from a started stream "MZ9" with an empty queue,
two fragments "a", "b" are forwarded in order, each followed by its mark,
and the queue gains two tokens. -/
theorem audio_deltas_ordered_witness :
    (runSession
        { streamSid := some "MZ9", latestMediaTimestamp := 0,
          lastAssistantItem := none, markQueue := [],
          responseStartTimestampTwilio := none }
        ((["a", "b"]).map (fun p => SessionEvent.audioDelta p none))).2.2 =
      expectedDeltaMsgs (some "MZ9") ["a", "b"] ∧
    (runSession
        { streamSid := some "MZ9", latestMediaTimestamp := 0,
          lastAssistantItem := none, markQueue := [],
          responseStartTimestampTwilio := none }
        ((["a", "b"]).map (fun p => SessionEvent.audioDelta p none))).1.markQueue =
      ({ streamSid := some "MZ9", latestMediaTimestamp := 0,
         lastAssistantItem := none, markQueue := [],
         responseStartTimestampTwilio := none } : SessionState).markQueue ++
        List.replicate (["a", "b"] : List String).length "responsePart" :=
  audio_deltas_ordered "MZ9" ["a", "b"] (by decide) _ rfl (by decide)
